import Mathlib

/- Shallow embedding of the QMServer module pipeline and HTTP handlers.

Source files embedded:
  src/module_manager.py : install_module_from_repository
  src/main.py           : lifespan startup orchestration, ModuleInfo,
                          get_module_details
  src/api/router/admin.py : register_admin
  src/api/router/auth.py  : register, login (email local-part logic)

Machine-level conventions: Python dictionaries become association lists,
fallible code returns PyResult (ok value vs escaped exception), the
filesystem and the injected I/O faults are explicit inputs. -/

/-- Result of running a piece of modelled Python code: either a value, or an
uncaught exception that escaped the modelled code. -/
inductive PyResult (α : Type) where
  | ok (a : α)
  | exn (msg : String)

/-- Projection used to state closed facts about pipeline runs. -/
def pyOk? {α : Type} : PyResult α → Option α
  | .ok a => some a
  | .exn _ => none

/-- The on-disk module descriptor (module.json) as json.load delivers it:
every field optional, defaults applied by the reader in src/main.py
lines 203-209 via dict.get. -/
structure DescriptorJson where
  name : Option String
  version : Option String
  is_free : Option Bool
  is_default : Option Bool
  description : Option String
deriving DecidableEq

/-- Abstract content of an on-disk file as the pipeline observes it.
A module.json that parses is a descriptor; one that json.load rejects is
malformedJson. A main.py is characterised by whether exec_module raises,
whether it defines init_database, whether that hook raises when invoked,
and its optional top-level __version__ attribute (src/main.py
lines 228-260). Anything else is opaque text. -/
inductive Content where
  | text (s : String)
  | descriptor (d : DescriptorJson)
  | malformedJson
  | pymodule (execRaises : Bool) (hasInit : Bool) (initRaises : Bool)
      (versionAttr : Option String)

/-- A directory listing entry: a file with content or a subdirectory with
its own listing, in os.listdir order. -/
inductive Entry where
  | file (entryName : String) (content : Content)
  | dir (entryName : String) (children : List Entry)

/-- The name of a listing entry. -/
def Entry.name : Entry → String
  | .file n _ => n
  | .dir n _ => n

/-- In-memory record for a module, from the ModuleInfo pydantic model in
src/main.py lines 36-50. Note: the model has exactly these five fields and
no is_installed or is_activated flag. -/
structure ModuleInfo where
  name : String
  version : String
  is_free : Bool
  is_default : Bool
  description : String
deriving DecidableEq

/-- The process-wide installed_modules dict (src/main.py line 103),
modelled as an association list keyed by module name. -/
abbrev Registry := List (String × ModuleInfo)

/-- Python dict lookup on the registry. -/
def regLookup (nm : String) : Registry → Option ModuleInfo
  | [] => none
  | (k, v) :: rest => if k = nm then some v else regLookup nm rest

/-- Python dict assignment installed_modules[nm] = mi: replaces the entry
in place when the key exists, appends otherwise. -/
def regInsert (nm : String) (mi : ModuleInfo) : Registry → Registry
  | [] => [(nm, mi)]
  | (k, v) :: rest =>
    if k = nm then (nm, mi) :: rest else (k, v) :: regInsert nm mi rest

/-- Fault model for the filesystem and git operations that
install_module_from_repository performs. rmtreeRaises injects an I/O error
into the shutil.rmtree of an existing install directory (src/module_manager.py
line 46), gitRaises into the git fetch / worktree add calls (lines 51, 66),
copyRaises nm into the shutil copy of the top-level entry named nm
(lines 76-78), cleanupRaises into the worktree removal after a successful
copy (lines 82-83). -/
structure FsEnv where
  rmtreeRaises : Bool
  gitRaises : Bool
  cleanupRaises : Bool
  copyRaises : String → Bool

/-- The copy loop of src/module_manager.py lines 72-78. State: the entries
still to process, whether the destination directory exists yet, and the
entries already copied. The destination is never created explicitly: only
shutil.copytree on a directory entry creates it (os.makedirs inside
copytree), so shutil.copy2 of a file raises FileNotFoundError while the
destination is still absent. Any exception is caught by the except clauses
at lines 89-94, so the loop reports failure and the entries copied so far.
Returns (success, destinationCreated, copiedEntries). -/
def copyLoop (env : FsEnv) : List Entry → Bool → List Entry →
    Bool × Bool × List Entry
  | [], created, acc => (true, created, acc)
  | e :: rest, created, acc =>
    if env.copyRaises e.name then (false, created, acc)
    else
      match e with
      | .dir _ _ => copyLoop env rest true (acc ++ [e])
      | .file _ _ =>
        if created then copyLoop env rest created (acc ++ [e])
        else (false, created, acc)

/-- The body of the try block of install_module_from_repository
(src/module_manager.py lines 48-106), entered after any pre-existing
destination directory has been removed. GitCommandError from fetch or
worktree add, a missing branch, and any copy exception all produce
(False, resulting destination); an error in the post-copy worktree cleanup
(still inside the try) also produces False even though the copy completed.
Returns (returned bool, final destination listing, none when the
destination directory does not exist). -/
def installAfterRemove (env : FsEnv) (branchExists : Bool)
    (src : List Entry) : Bool × Option (List Entry) :=
  if env.gitRaises then (false, none)
  else if branchExists then
    let t := copyLoop env src false []
    let d := if t.2.1 then some t.2.2 else none
    if t.1 then (if env.cleanupRaises then (false, d) else (true, d))
    else (false, d)
  else (false, none)

/-- install_module_from_repository (src/module_manager.py lines 37-106).
Inputs: the fault environment, whether module_name names a branch of the
clone, the branch tree listing, and the current destination directory
(modules/module_name) listing, none when absent. The removal of an
existing destination at lines 44-46 happens before the try block, so an
I/O error there escapes as an exception; everything afterwards is inside
try/except and returns a bool. -/
def installModuleFromRepository (env : FsEnv) (branchExists : Bool)
    (src : List Entry) (dest : Option (List Entry)) :
    PyResult (Bool × Option (List Entry)) :=
  match dest with
  | some _ =>
    if env.rmtreeRaises then .exn "rmtree"
    else .ok (installAfterRemove env branchExists src)
  | none => .ok (installAfterRemove env branchExists src)

/-- Python truthiness test applied to an optional environment variable:
if not modules_repo_url (src/main.py line 181) is taken for an unset
variable and for the empty string. -/
def strFalsy : Option String → Bool
  | none => true
  | some s => s = ""

/-- The environment configuration read at src/main.py lines 174-175. -/
structure Config where
  modulesRepoUrl : Option String
  modulesRepoToken : Option String

/-- Environment of one startup run. cloneResult is the outcome of
clone_or_pull_module_branch. Modelled from the spec:
clone_or_pull_module_branch is imported by src/main.py line 17 but is not
defined in src/module_manager.py; per spec section 4.1 the fetcher returns
a local path holding the branch tree of the requested module, or a falsy
sentinel on failure, so the environment supplies either the fetched branch
listing or none. branchExists states whether the module name is a branch
of the clone, checked by install_module_from_repository. -/
structure PipelineEnv where
  fsEnv : FsEnv
  cloneResult : Option (List Entry)
  branchExists : Bool

/-- Look up a top-level file by name in a directory listing, as the
os.path based accesses in src/main.py do (modules/sqlite/module.json,
modules/sqlite/main.py). Subdirectories never match a file open. -/
def findFile (nm : String) : List Entry → Option Content
  | [] => none
  | .file n c :: rest => if n = nm then some c else findFile nm rest
  | .dir _ _ :: rest => findFile nm rest

/-- Build a ModuleInfo from a parsed descriptor, with the dict.get
defaults of src/main.py lines 203-209. -/
def moduleInfoFromDescriptor (moduleName : String) (d : DescriptorJson) :
    ModuleInfo where
  name := d.name.getD moduleName
  version := d.version.getD "0.0.0"
  is_free := d.is_free.getD false
  is_default := d.is_default.getD false
  description := d.description.getD "No description provided."

/-- The hard-coded registry entry created by the dynamic loader when no
entry exists yet (src/main.py lines 247-257). -/
def hardcodedSqliteInfo (v : String) : ModuleInfo where
  name := "SQLite"
  version := v
  is_free := true
  is_default := true
  description := "Default SQLite database module for QMServer. Provides local data storage capabilities."

/-- The metadata loading step of src/main.py lines 197-220, run only after
a successful install: when module.json exists and parses, the registry
entry is replaced by the descriptor-derived ModuleInfo; when the file is
absent or json.load raises, the exception or warning path leaves the
registry untouched. -/
def metadataUpdate (nm : String) (dest : Option (List Entry))
    (reg : Registry) : Registry :=
  match dest with
  | none => reg
  | some L =>
    match findFile "module.json" L with
    | some (.descriptor dj) => regInsert nm (moduleInfoFromDescriptor nm dj) reg
    | _ => reg

/-- Whether the dynamic load stage of src/main.py lines 226-273 ends with
sqlite_module_funcs bound: the module directory must exist and its main.py
must exec without raising. A raising init_database hook still leaves the
functions bound, since the assignment at line 237 precedes the hook call. -/
def loadFlag (dest : Option (List Entry)) : Bool :=
  match dest with
  | none => false
  | some L =>
    match findFile "main.py" L with
    | some (.pymodule false _ _ _) => true
    | _ => false

/-- The registry effect of the dynamic load stage (src/main.py
lines 226-273). When main.py execs and the init hook does not raise
(lines 246-260 run): with no existing entry the hard-coded SQLite record
is inserted with version from the loaded module, otherwise only the
version field of the existing entry is overwritten with the loaded module
attribute __version__ (default "0.0.0"). Every failure path is caught and
leaves the registry untouched. -/
def loadRegUpdate (nm : String) (dest : Option (List Entry))
    (reg : Registry) : Registry :=
  match dest with
  | none => reg
  | some L =>
    match findFile "main.py" L with
    | some (.pymodule false hasInit initRaises versionAttr) =>
      if hasInit && initRaises then reg
      else
        match regLookup nm reg with
        | none => regInsert nm (hardcodedSqliteInfo (versionAttr.getD "0.0.0")) reg
        | some mi => regInsert nm { mi with version := versionAttr.getD "0.0.0" } reg
    | _ => reg

/-- Observable state after one lifespan run: the registry, the
modules/sqlite directory listing, whether sqlite_module_funcs is bound,
the result of the install stage (none when the stage never ran), and
whether clone_or_pull_module_branch was invoked at all. -/
structure PipelineState where
  registry : Registry
  dest : Option (List Entry)
  funcsLoaded : Bool
  installResult : Option Bool
  cloneAttempted : Bool

/-- The unconditional tail of the lifespan function: the dynamic load
stage runs on whatever directory state the earlier stages left behind
(src/main.py lines 224-273). -/
def finishLoad (cloneAttempted : Bool) (installResult : Option Bool)
    (dest : Option (List Entry)) (reg : Registry) : PipelineState where
  registry := loadRegUpdate "sqlite" dest reg
  dest := dest
  funcsLoaded := loadFlag dest
  installResult := installResult
  cloneAttempted := cloneAttempted

/-- The lifespan startup orchestration of src/main.py lines 160-276 for
the one designated module name "sqlite": missing configuration skips
cloning and installing; a falsy clone result skips installing; a
successful install is followed by the metadata step; the dynamic load
stage always runs at the end. An exception escaping the install stage
escapes the whole startup. -/
def lifespanRun (env : PipelineEnv) (cfg : Config)
    (dest0 : Option (List Entry)) (reg0 : Registry) :
    PyResult PipelineState :=
  if strFalsy cfg.modulesRepoUrl || strFalsy cfg.modulesRepoToken then
    .ok (finishLoad false none dest0 reg0)
  else
    match env.cloneResult with
    | none => .ok (finishLoad true none dest0 reg0)
    | some src =>
      match installModuleFromRepository env.fsEnv env.branchExists src dest0 with
      | .exn m => .exn m
      | .ok p =>
        .ok (finishLoad true (some p.1) p.2
          (if p.1 then metadataUpdate "sqlite" p.2 reg0 else reg0))

/-- The get_module_details handler (src/api/router/modules.py lines 34-49,
identical in src/main.py lines 438-453): a missing key raises
HTTPException 404, a present key returns its record; the registry is
returned unchanged alongside to record that neither path mutates it. -/
def getModuleDetails (moduleName : String) (reg : Registry) :
    Except Nat ModuleInfo × Registry :=
  match regLookup moduleName reg with
  | none => (Except.error 404, reg)
  | some mi => (Except.ok mi, reg)

/-- A stored administrator record as the loaded storage module returns it.
The storage module itself is an external collaborator (spec sections 1
and 6); its records carry at least username, optional email and the
password hash, which is all the handlers in src read. -/
structure AdminRec where
  username : String
  email : Option String
  password_hash : String
deriving DecidableEq

/-- Capability surface of the dynamically loaded storage module, as the
handlers in src/api/router consume it (spec section 6): lookup by
username, optional lookup by email (the login handler probes for it with
hasattr), record creation, and password verification. The module owns a
state of its own type which the query functions read and create mutates. -/
structure SqliteFuncs (σ : Type) where
  getAdminByUsername : σ → String → Option AdminRec
  getAdminByEmail : Option (σ → String → Option AdminRec)
  createAdmin : σ → String → String → Option String → Bool × σ
  verifyPassword : String → String → Bool

/-- Request body of the admin registration endpoints. -/
structure AdminCreate where
  username : String
  email : Option String
  password : String

/-- Handler outcome: a success body or an HTTPException with status code
and detail. -/
inductive HResp where
  | ok (username : String) (email : Option String)
  | httpError (code : Nat) (detail : String)
deriving DecidableEq

/-- The register_admin handler (src/api/router/admin.py lines 150-173):
500 when the module is not loaded, 400 when get_admin_by_username finds an
existing record, otherwise create_admin is invoked and its boolean decides
between the success body and a 500. The second component is the storage
module state after the handler. -/
def registerAdmin {σ : Type} (funcs : Option (SqliteFuncs σ)) (st : σ)
    (admin : AdminCreate) : HResp × σ :=
  match funcs with
  | none => (.httpError 500 "SQLite module not loaded.", st)
  | some f =>
    match f.getAdminByUsername st admin.username with
    | some _ => (.httpError 400 "Username already registered", st)
    | none =>
      let p := f.createAdmin st admin.username admin.password admin.email
      if p.1 then (.ok admin.username admin.email, p.2)
      else (.httpError 500 "Failed to register admin", p.2)

/-- Python email.split of the at sign, first component: the substring
before the first at sign, the whole string when none occurs
(src/api/router/auth.py lines 71 and 120). -/
def localPart (s : String) : String :=
  String.mk (s.toList.takeWhile (fun c => c != '@'))

/-- Request body of the JSON register endpoint
(src/api/router/auth.py lines 28-32). -/
structure RegisterRequest where
  email : String
  password : String
  username : Option String

/-- The username picked at src/api/router/auth.py line 71: the submitted
username when truthy, else the local part of the email. Python or treats
both None and the empty string as falsy. -/
def chosenUsername (r : RegisterRequest) : String :=
  match r.username with
  | none => localPart r.email
  | some u => if u = "" then localPart r.email else u

/-- The register handler of src/api/router/auth.py lines 48-88. -/
def authRegister {σ : Type} (funcs : Option (SqliteFuncs σ)) (st : σ)
    (r : RegisterRequest) : HResp × σ :=
  match funcs with
  | none => (.httpError 500 "SQLite module not loaded.", st)
  | some f =>
    let username := chosenUsername r
    match f.getAdminByUsername st username with
    | some _ => (.httpError 400 "User with this email already exists", st)
    | none =>
      let p := f.createAdmin st username r.password (some r.email)
      if p.1 then (.ok username (some r.email), p.2)
      else (.httpError 500 "Failed to register user", p.2)

/-- Request body of the JSON login endpoint. -/
structure LoginRequest where
  email : String
  password : String

/-- Login outcome: an issued token with its sub and email claims, or an
HTTPException. -/
inductive LoginResp where
  | token (sub : String) (email : String)
  | httpError (code : Nat) (detail : String)
deriving DecidableEq

/-- The login handler of src/api/router/auth.py lines 91-146: lookup by
email when the module exposes get_admin_by_email, then fallback lookup by
the username equal to the email local part, then 401 when no record is
found or the password does not verify, else a token whose sub claim is
the stored username. -/
def authLogin {σ : Type} (funcs : Option (SqliteFuncs σ)) (st : σ)
    (r : LoginRequest) : LoginResp :=
  match funcs with
  | none => .httpError 500 "SQLite module not loaded."
  | some f =>
    let byEmail :=
      match f.getAdminByEmail with
      | some g => g st r.email
      | none => none
    let adminData :=
      match byEmail with
      | some a => some a
      | none => f.getAdminByUsername st (localPart r.email)
    match adminData with
    | none => .httpError 401 "Incorrect email or password"
    | some a =>
      if f.verifyPassword a.password_hash r.password then
        .token a.username (a.email.getD r.email)
      else .httpError 401 "Incorrect email or password"

/-- A fault environment in which no injected I/O error fires. -/
def noFailEnv : FsEnv where
  rmtreeRaises := false
  gitRaises := false
  cleanupRaises := false
  copyRaises := fun _ => false

/-- A configuration with the repository URL unset. -/
def cfgUnset : Config where
  modulesRepoUrl := none
  modulesRepoToken := some "token"

/-- Environment for the C5 scenario; its contents are irrelevant because
the unset configuration short-circuits before any of it is consulted. -/
def c5Env : PipelineEnv where
  fsEnv := noFailEnv
  cloneResult := none
  branchExists := true

/-- A concrete storage-module state: an association list of records keyed
by username. -/
abbrev AdminStore := List (String × AdminRec)

/-- Lookup in the concrete storage-module state. -/
def storeLookup (nm : String) : AdminStore → Option AdminRec
  | [] => none
  | (k, v) :: rest => if k = nm then some v else storeLookup nm rest

/-- A concrete storage module used by witnesses: username lookup over the
association list, no email lookup, creation appends, verification compares
the hash with the plaintext directly. -/
def listFuncs : SqliteFuncs AdminStore where
  getAdminByUsername := fun st nm => storeLookup nm st
  getAdminByEmail := none
  createAdmin := fun st u pw em =>
    (true, st ++ [(u, { username := u, email := em, password_hash := pw })])
  verifyPassword := fun h pw => h == pw

/-- State reached when the configuration is unset and the filesystem and
registry start empty: nothing happens at all. -/
def c5StateIdle : PipelineState where
  registry := []
  dest := none
  funcsLoaded := false
  installResult := none
  cloneAttempted := false

/-- An already registered administrator record. -/
def aliceRec : AdminRec where
  username := "alice"
  email := some "alice@example.com"
  password_hash := "pw"

/-- A one-record storage state holding alice. -/
def store0 : AdminStore := [("alice", aliceRec)]

/-- A record whose username is the local part of an email address. -/
def bobRec : AdminRec where
  username := "bob"
  email := none
  password_hash := "pw"

/-- A one-record storage state holding bob. -/
def storeBob : AdminStore := [("bob", bobRec)]

/-- C8 (confirmed): get_module_details returns exactly the Registry entry
for the requested name when present, raises 404 when absent, and leaves
the registry unchanged in both cases. -/
theorem c8_get_module_lookup (nm : String) (reg : Registry) (mi : ModuleInfo) :
    (regLookup nm reg = some mi →
      getModuleDetails nm reg = (Except.ok mi, reg))
    ∧ (regLookup nm reg = none →
      getModuleDetails nm reg = (Except.error 404, reg)) := by
  constructor <;> intro h <;> simp [getModuleDetails, h]

/-- C8 witness: both branches at a concrete registry. -/
theorem c8_get_module_lookup_witness :
    getModuleDetails "sqlite" [("sqlite", hardcodedSqliteInfo "0.0.0")]
      = (Except.ok (hardcodedSqliteInfo "0.0.0"),
         [("sqlite", hardcodedSqliteInfo "0.0.0")])
    ∧ getModuleDetails "postgres" [("sqlite", hardcodedSqliteInfo "0.0.0")]
      = (Except.error 404, [("sqlite", hardcodedSqliteInfo "0.0.0")]) :=
  ⟨(c8_get_module_lookup "sqlite" [("sqlite", hardcodedSqliteInfo "0.0.0")]
      (hardcodedSqliteInfo "0.0.0")).1 rfl,
   (c8_get_module_lookup "postgres" [("sqlite", hardcodedSqliteInfo "0.0.0")]
      (hardcodedSqliteInfo "0.0.0")).2 rfl⟩

/-- C9 (confirmed): when get_admin_by_username finds an existing record for
the requested username, register_admin answers 400 Username already
registered and returns the storage state unchanged; the result does not
depend on create_admin at all (the conclusion holds for every funcs value
whose lookup returns a record), so the create operation is never invoked,
and the outcome is an ordinary error response, not an escaped exception. -/
theorem c9_duplicate_username_rejected {σ : Type} (f : SqliteFuncs σ)
    (st : σ) (a : AdminCreate) (r : AdminRec)
    (h : f.getAdminByUsername st a.username = some r) :
    registerAdmin (some f) st a =
      (HResp.httpError 400 "Username already registered", st) := by
  simp [registerAdmin, h]

/-- C9 witness: registering alice twice against a concrete store. -/
theorem c9_duplicate_username_rejected_witness :
    registerAdmin (some listFuncs) store0
      { username := "alice", email := some "alice@example.com",
        password := "other" }
      = (HResp.httpError 400 "Username already registered", store0) :=
  c9_duplicate_username_rejected listFuncs store0
    { username := "alice", email := some "alice@example.com",
      password := "other" } aliceRec rfl

/-- C10 (confirmed): the JSON auth endpoints derive the username from the
submitted email local part (the substring before the first at sign):
register with no username checks duplicates against the local part and,
when free, invokes create_admin with the local part as username; login
falls back, when the email lookup yields nothing or the module has no
get_admin_by_email, to lookup by username equal to the local part and
issues a token for that account when the password verifies. -/
theorem c10_email_local_part_fallback :
    (∀ (σ : Type) (f : SqliteFuncs σ) (st : σ) (r : RegisterRequest)
        (rec : AdminRec),
      r.username = none →
      f.getAdminByUsername st (localPart r.email) = some rec →
      authRegister (some f) st r =
        (HResp.httpError 400 "User with this email already exists", st))
    ∧ (∀ (σ : Type) (f : SqliteFuncs σ) (st : σ) (r : RegisterRequest),
      r.username = none →
      f.getAdminByUsername st (localPart r.email) = none →
      authRegister (some f) st r =
        (if (f.createAdmin st (localPart r.email) r.password (some r.email)).1
         then (HResp.ok (localPart r.email) (some r.email),
               (f.createAdmin st (localPart r.email) r.password (some r.email)).2)
         else (HResp.httpError 500 "Failed to register user",
               (f.createAdmin st (localPart r.email) r.password (some r.email)).2)))
    ∧ (∀ (σ : Type) (f : SqliteFuncs σ) (st : σ) (r : LoginRequest)
        (rec : AdminRec),
      (∀ g, f.getAdminByEmail = some g → g st r.email = none) →
      f.getAdminByUsername st (localPart r.email) = some rec →
      f.verifyPassword rec.password_hash r.password = true →
      authLogin (some f) st r =
        LoginResp.token rec.username (rec.email.getD r.email)) := by
  refine ⟨?_, ?_, ?_⟩
  · intro σ f st r rec hu h
    simp [authRegister, chosenUsername, hu, h]
  · intro σ f st r hu h
    simp only [authRegister, chosenUsername, hu, h]
  · intro σ f st r rec hge h hv
    unfold authLogin
    cases hge2 : f.getAdminByEmail with
    | none => simp [hge2, h, hv]
    | some g =>
      have hnone := hge g hge2
      simp [hge2, hnone, h, hv]

/-- C10 witness: concrete register duplicate check, register creation, and
login fallback, all keyed by the email local part. -/
theorem c10_email_local_part_fallback_witness :
    authRegister (some listFuncs) storeBob
      { email := "bob@example.com", password := "x", username := none }
      = (HResp.httpError 400 "User with this email already exists", storeBob)
    ∧ authRegister (some listFuncs) []
      { email := "carol@example.com", password := "x", username := none }
      = (if (listFuncs.createAdmin [] (localPart "carol@example.com") "x"
              (some "carol@example.com")).1
         then (HResp.ok (localPart "carol@example.com")
                 (some "carol@example.com"),
               (listFuncs.createAdmin [] (localPart "carol@example.com") "x"
                 (some "carol@example.com")).2)
         else (HResp.httpError 500 "Failed to register user",
               (listFuncs.createAdmin [] (localPart "carol@example.com") "x"
                 (some "carol@example.com")).2))
    ∧ authLogin (some listFuncs) storeBob
        { email := "bob@example.com", password := "pw" }
      = LoginResp.token "bob" "bob@example.com" := by
  refine ⟨?_, ?_, ?_⟩
  · exact c10_email_local_part_fallback.1 AdminStore listFuncs storeBob
      { email := "bob@example.com", password := "x", username := none }
      bobRec rfl rfl
  · exact c10_email_local_part_fallback.2.1 AdminStore listFuncs []
      { email := "carol@example.com", password := "x", username := none }
      rfl rfl
  · exact c10_email_local_part_fallback.2.2 AdminStore listFuncs storeBob
      { email := "bob@example.com", password := "pw" }
      bobRec (fun g hg => by simp [listFuncs] at hg) rfl rfl

/-- C5 (amended): with MODULES_REPO_URL or MODULES_REPO_TOKEN unset (or
empty), the orchestrator never invokes the fetcher and never runs the
install stage — no network I/O — the module directory is left as it was,
and on a fresh state (no module directory, empty registry) no Registry
entry whatsoever is created: get_module("sqlite") then raises 404. No
"not configured" record exists in the code, and ModuleInfo has no
is_installed field to set false. -/
theorem c5_not_configured_skips_pipeline (env : PipelineEnv) (cfg : Config)
    (d0 : Option (List Entry)) (r0 : Registry) (s : PipelineState)
    (hc : (strFalsy cfg.modulesRepoUrl || strFalsy cfg.modulesRepoToken) = true)
    (h : lifespanRun env cfg d0 r0 = .ok s) :
    s.cloneAttempted = false ∧ s.installResult = none ∧ s.dest = d0
    ∧ (d0 = none → s.registry = r0
        ∧ (r0 = [] →
            getModuleDetails "sqlite" s.registry = (Except.error 404, []))) := by
  unfold lifespanRun at h
  rw [hc] at h
  simp only [if_true] at h
  have hs : s = finishLoad false none d0 r0 := by
    injection h with h2; exact h2.symm
  subst hs
  refine ⟨rfl, rfl, rfl, ?_⟩
  intro hd
  subst hd
  refine ⟨rfl, ?_⟩
  intro hr
  simp [finishLoad, loadRegUpdate, hr, getModuleDetails, regLookup]

/-- C5 counterexample: configuration unset, fresh filesystem and registry:
the fetcher is never called, the Registry stays empty, and
get_module("sqlite") yields 404 rather than a "not configured" record. -/
theorem c5_not_configured_yields_404 :
    (pyOk? (lifespanRun c5Env cfgUnset none [])).map
        (fun s => (s.cloneAttempted, s.registry,
          getModuleDetails "sqlite" s.registry))
      = some (false, [], (Except.error 404, [])) := rfl

/-- C5 witness: the amended theorem applied to the unset configuration. -/
theorem c5_not_configured_skips_pipeline_witness :
    lifespanRun c5Env cfgUnset none [] = .ok c5StateIdle
    ∧ (c5StateIdle.cloneAttempted = false ∧ c5StateIdle.installResult = none
        ∧ c5StateIdle.dest = none
        ∧ ((none : Option (List Entry)) = none → c5StateIdle.registry = []
            ∧ (([] : Registry) = [] →
                getModuleDetails "sqlite" c5StateIdle.registry
                  = (Except.error 404, [])))) :=
  ⟨rfl, c5_not_configured_skips_pipeline c5Env cfgUnset none [] c5StateIdle
    rfl rfl⟩

